import Mathlib

/-!
Verification of the human-in-the-loop agent orchestration core
(`agent_panel.py`, `movie_tool.py`, `chart_tool.py`).

Shallow embedding conventions:
* Streamlit session state (`st.session_state`) becomes the explicit record
  `AgentState`; every mutating Python function becomes a state-transforming
  Lean function.
* Python exceptions escaping a function are modeled as `Except.error`;
  because Streamlit's `st.session_state` survives an exception in a script
  run, the error value also carries the partially mutated state at the point
  the exception escaped.
* The language-model service, the subprocess runner, `json.loads`, and
  `alt.Chart.from_dict` are external collaborators; their behavior at each
  call is supplied as an explicit argument (`ExecEnv`, or the parsed model
  response fed to a step).
* The tool registry (`agent_tools`) and the bound dataframe (`agent_df`) are
  fixed at session start and consumed only by the model service and the
  code-execution subprocess, both of which are external; they are therefore
  modeled through `ExecEnv` rather than stored in `AgentState`.
-/

namespace AgentPanel

/-- Python exceptions that can escape the orchestration functions. -/
inductive PyError where
  | timeoutExpired
  | nameError (varName : String)
  | attributeError (attr : String)
  | keyError (key : String)
  | jsonDecodeError (msg : String)
  | validationError
deriving DecidableEq, Repr

/-- Outcome of `subprocess.run([sys.executable, "generated_code.py"], capture_output=True,
text=True, timeout=10)` in `movie_tool.query_movie_db`: either the child process
completed (with a return code, captured stdout and stderr), or the 10-second
timeout expired, in which case `subprocess.run` raises `subprocess.TimeoutExpired`. -/
inductive RunOutcome where
  | completed (returncode : Int) (stdout : String) (stderr : String)
  | timedOut
deriving DecidableEq, Repr

/-- Abstract token for a parsed JSON value (a Python dict) as returned by
`json.loads` on a chart specification and consumed opaquely by
`alt.Chart.from_dict` and `st.vega_lite_chart`. -/
structure SpecDict where
  raw : String
deriving DecidableEq, Repr

/-- One entry of `msg.tool_calls`: `tc.id`, `tc.function.name` and the raw JSON
string `tc.function.arguments`. -/
structure ToolCall where
  id : String
  name : String
  arguments : String
deriving DecidableEq, Repr

/-- One entry of the `agent_messages` list. Python represents these as dicts
(`role`, `content`, optionally `tool_call_id`) or as the model response object
(role assistant, with `tool_calls`). A Python `content` of `None` is modeled
as `""`; an absent `tool_calls` field as `[]`. -/
structure Message where
  role : String
  content : String
  tool_calls : List ToolCall := []
  tool_call_id : Option String := none
deriving DecidableEq, Repr

/-- The `Alternative` pydantic model of `generate_alternatives`. -/
structure Alternative where
  title : String
  description : String
  rationale : String
deriving DecidableEq, Repr

/-- The `Reasoning` pydantic model parsed from the model response in the
thinking branch of `run_step`. -/
structure Reasoning where
  reason : String
  use_tool : Bool
  answer : Option String
deriving DecidableEq, Repr

/-- One entry of the `agent_events` list, a tagged dict in Python
(`event["type"]` is the tag). -/
inductive Event where
  | thought (thought : String)
  | answer (thought : String) (answer : Option String)
  | action (name : String) (code : String) (result : String)
  | chart (name : String) (spec_str : String) (result : String)
  | rejected (name : String) (feedback : String)
  | alternatives_generated (alternatives : List Alternative)
  | alternative_selected (alternative : Alternative) (index : Int)
deriving DecidableEq, Repr

/-- The `agent_phase` strings of `agent_panel.py`. -/
inductive Phase where
  | idle
  | thinking
  | acting
  | awaiting_approval
  | awaiting_feedback
  | generating_alternatives
  | selecting_alternative
  | done
deriving DecidableEq, Repr

/-- The orchestration-relevant fields of `st.session_state`
(see `DEFAULT_STATE` in `agent_panel.py`). -/
structure AgentState where
  agent_phase : Phase
  agent_events : List Event
  agent_messages : List Message
  agent_chart_specs : List SpecDict
  agent_pending_message : Option Message
  agent_alternatives : List Alternative
  selected_alternative : Option Int
deriving DecidableEq, Repr

/-- Behavior of the external collaborators during one executor run:
`runCode code` is the outcome of `subprocess.run` on the generated file for
`code`; `argsOf a` is `json.loads` applied to a tool call's `arguments` string,
viewed through its string-valued fields (error = the `JSONDecodeError` text);
`jsonLoadsSpec` is `json.loads` on a chart specification string; `fromDict` is
`alt.Chart.from_dict` (error = the exception text). -/
structure ExecEnv where
  runCode : String → RunOutcome
  argsOf : String → Except String (List (String × String))
  jsonLoadsSpec : String → Except String SpecDict
  fromDict : SpecDict → Except String Unit

/-- Characters removed by Python `str.strip()` (ASCII whitespace). -/
def isPySpace (c : Char) : Bool :=
  c = ' ' || c = '\t' || c = '\n' || c = '\r' || c = '\x0b' || c = '\x0c'

/-- Python `s.strip()`. -/
def pyStrip (s : String) : String :=
  String.mk (((s.toList.dropWhile isPySpace).reverse.dropWhile isPySpace).reverse)

/-- Embeds `movie_tool.query_movie_db(code, filtered_df)`. The CSV dump, the
write of `generated_code.py` and the subprocess launch are external effects;
`outcome` is the result of `subprocess.run(..., timeout=10)` on the given code.
When the timeout expires, `subprocess.run` raises `subprocess.TimeoutExpired`
and no handler in `movie_tool.py` or `agent_panel.py` catches it, so the
exception escapes (modeled as `Except.error`). Otherwise the function returns
`result.stderr` on a non-zero return code, a fixed no-output message when
stdout strips to empty, and stdout itself otherwise. -/
def query_movie_db (outcome : RunOutcome) : Except PyError String :=
  match outcome with
  | .timedOut => .error .timeoutExpired
  | .completed returncode stdout stderr =>
    if returncode ≠ 0 then .ok stderr
    else if pyStrip stdout = "" then .ok "No output. Did you forget to use print()?"
    else .ok stdout

/-- Embeds `chart_tool.validate_chart(vega_lite_spec)`: `json.loads` failure is
caught and reported as an Invalid JSON result; `alt.Chart.from_dict` failure is
caught and reported as an Invalid Vega-Lite specification result; on success
the parsed spec is returned together with a fixed validity message. -/
def validate_chart (env : ExecEnv) (vega_lite_spec : String) : Option SpecDict × String :=
  match env.jsonLoadsSpec vega_lite_spec with
  | .error e => (none, "Invalid JSON: " ++ e)
  | .ok spec =>
    match env.fromDict spec with
    | .ok _ => (some spec, "Valid Vega-Lite specification.")
    | .error e => (none, "Invalid Vega-Lite specification: " ++ e)

/-- The `DEFAULT_STATE` dict of `agent_panel.py`, restricted to the modeled fields. -/
def DEFAULT_STATE : AgentState :=
  { agent_phase := .idle
    agent_events := []
    agent_messages := []
    agent_chart_specs := []
    agent_pending_message := none
    agent_alternatives := []
    selected_alternative := none }

/-- The system message content built in `restart_agent`. -/
def systemContent (show_chart : Bool) : String :=
  "You are a data analyst with access to a tool that executes Python code on a movie database."
    ++ (if show_chart then " After computing the data, create a chart using a Vega-Lite specification." else "")

/-- Embeds `restart_agent(user_question, filtered_df, show_chart)`: every modeled
session field is overwritten, so the previous state is irrelevant. The tool
registry and dataframe bindings (`agent_tools`, `agent_df`) are external (see
the module docstring). -/
def restart_agent (user_question : String) (show_chart : Bool) : AgentState :=
  { agent_phase := .thinking
    agent_events := []
    agent_messages :=
      [ { role := "system", content := systemContent show_chart }
      , { role := "user", content := user_question } ]
    agent_chart_specs := []
    agent_pending_message := none
    agent_alternatives := []
    selected_alternative := none }

/-- Embeds the `phase == "thinking"` branch of `run_step`, with `r` the parsed
`Reasoning` returned by the model service: the reason is appended as an
assistant message; on `use_tool` a thought event is appended and the phase
moves to acting, otherwise an answer event is appended and the phase moves to
done. -/
def run_step_thinking (r : Reasoning) (s : AgentState) : AgentState :=
  let s1 : AgentState := { s with agent_messages := s.agent_messages ++ [{ role := "assistant", content := r.reason }] }
  if r.use_tool then
    { s1 with agent_events := s1.agent_events ++ [.thought r.reason], agent_phase := .acting }
  else
    { s1 with agent_events := s1.agent_events ++ [.answer r.reason r.answer], agent_phase := .done }

/-- The model response message of the acting branch: an assistant message
carrying the proposed tool calls. -/
def assistantToolMsg (content : String) (tool_calls : List ToolCall) : Message :=
  { role := "assistant", content := content, tool_calls := tool_calls }

/-- Embeds the `phase == "acting"` branch of `run_step`, with `content` and
`tool_calls` taken from the model response message: with no tool calls the
phase moves to done (and the message is dropped); otherwise the raw message is
stored as the pending message and the phase moves to awaiting approval. -/
def run_step_acting (content : String) (tool_calls : List ToolCall) (s : AgentState) : AgentState :=
  if tool_calls.isEmpty then { s with agent_phase := .done }
  else { s with agent_pending_message := some (assistantToolMsg content tool_calls)
                agent_phase := .awaiting_approval }

/-- A `{"role": "tool", "content": content, "tool_call_id": tc.id}` dict. -/
def toolResultMsg (content : String) (callId : String) : Message :=
  { role := "tool", content := content, tool_call_id := some callId }

/-- Embeds the `for tc in pending_msg.tool_calls` loop of
`execute_pending_tools`. `lastResult` tracks the Python local variable
`result`, which persists across loop iterations: for a tool name other than
QueryMovieDB and CreateChart no branch assigns `result`, so the trailing
`messages.append` either raises `NameError` (first iteration) or silently
reuses the previous iteration's result. Append order within an iteration
follows the source (event before tool-result message; chart spec accumulation
before the chart event). -/
def execLoop (env : ExecEnv) (lastResult : Option String) (s : AgentState) :
    List ToolCall → Except (PyError × AgentState) AgentState
  | [] => .ok s
  | tc :: rest =>
    match env.argsOf tc.arguments with
    | .error e => .error (.jsonDecodeError e, s)
    | .ok args =>
      if tc.name = "QueryMovieDB" then
        match args.lookup "code" with
        | none => .error (.keyError "code", s)
        | some code =>
          match query_movie_db (env.runCode code) with
          | .error err => .error (err, s)
          | .ok result =>
            let s1 := { s with
              agent_events := s.agent_events ++ [.action tc.name code result]
              agent_messages := s.agent_messages ++ [toolResultMsg result tc.id] }
            execLoop env (some result) s1 rest
      else if tc.name = "CreateChart" then
        match args.lookup "vega_lite_spec" with
        | none => .error (.keyError "vega_lite_spec", s)
        | some specStr =>
          let vr := validate_chart env specStr
          let s1 := match vr.1 with
            | some spec => { s with agent_chart_specs := s.agent_chart_specs ++ [spec] }
            | none => s
          let s2 := { s1 with
            agent_events := s1.agent_events ++ [.chart tc.name specStr vr.2]
            agent_messages := s1.agent_messages ++ [toolResultMsg vr.2 tc.id] }
          execLoop env (some vr.2) s2 rest
      else
        match lastResult with
        | none => .error (.nameError "result", s)
        | some r =>
          let s1 := { s with agent_messages := s.agent_messages ++ [toolResultMsg r tc.id] }
          execLoop env lastResult s1 rest

/-- Embeds `execute_pending_tools()`: the pending message is appended to the
history, each tool call is dispatched in emission order, then the pending
message is cleared and the phase returns to thinking. A `none` pending message
would raise `AttributeError` at `pending_msg.tool_calls` (in that unreachable
case the actual Python run would additionally have appended `None` to the
message list, which the `Message` type cannot represent). -/
def execute_pending_tools (env : ExecEnv) (s : AgentState) :
    Except (PyError × AgentState) AgentState :=
  match s.agent_pending_message with
  | none => .error (.attributeError "tool_calls", s)
  | some pm =>
    let s0 := { s with agent_messages := s.agent_messages ++ [pm] }
    match execLoop env none s0 pm.tool_calls with
    | .error e => .error e
    | .ok s1 => .ok { s1 with agent_pending_message := none, agent_phase := .thinking }

/-- The `rejection_msg` string built in `reject_pending_tools`: the fixed text,
suffixed with the feedback when the feedback string is truthy (non-empty). -/
def rejectionText (feedback : String) : String :=
  if feedback = "" then "User rejected this action."
  else "User rejected this action. User feedback: " ++ feedback

/-- Embeds the `for tc in pending_msg.tool_calls` loop of
`reject_pending_tools`: per call, one rejected event and one synthetic
tool-result message. -/
def rejectLoop (rejMsg feedback : String) (s : AgentState) :
    List ToolCall → AgentState
  | [] => s
  | tc :: rest =>
    rejectLoop rejMsg feedback
      { s with
        agent_events := s.agent_events ++ [.rejected tc.name feedback]
        agent_messages := s.agent_messages ++ [toolResultMsg rejMsg tc.id] } rest

/-- Embeds `reject_pending_tools(feedback)`: appends the pending message, then
per tool call a rejected event and a synthetic tool-result message, clears the
pending message and moves the phase to generating alternatives. As in
`execute_pending_tools`, a `none` pending message would raise
`AttributeError`. -/
def reject_pending_tools (feedback : String) (s : AgentState) :
    Except (PyError × AgentState) AgentState :=
  match s.agent_pending_message with
  | none => .error (.attributeError "tool_calls", s)
  | some pm =>
    let s0 := { s with agent_messages := s.agent_messages ++ [pm] }
    let s1 := rejectLoop (rejectionText feedback) feedback s0 pm.tool_calls
    .ok { s1 with agent_pending_message := none, agent_phase := .generating_alternatives }

/-- Embeds `generate_alternatives(client)`, with `raw` the alternatives list of
the model response. The `Alternatives` pydantic schema declares
`min_length=3, max_length=3`, so `client.chat.completions.parse` raises a
validation error before any state mutation when the model returns any other
count; note that `alt_messages = messages + [...]` builds a fresh list, so the
stored history is not mutated by this step. -/
def generate_alternatives (raw : List Alternative) (s : AgentState) :
    Except (PyError × AgentState) AgentState :=
  if raw.length = 3 then
    .ok { s with
      agent_alternatives := raw
      agent_events := s.agent_events ++ [.alternatives_generated raw]
      agent_phase := .selecting_alternative }
  else .error (.validationError, s)

/-- The guidance message content built in `apply_selected_alternative`. -/
def guidanceText (a : Alternative) : String :=
  "User selected approach: '" ++ a.title ++ "'. " ++ a.description
    ++ ". Please proceed with this strategy."

/-- Embeds `apply_selected_alternative(alternative_index)`: inside the range
check `0 <= alternative_index < len(alternatives)` it records the index,
appends a user-role guidance message and an alternative-selected event, and
moves the phase to thinking; outside the range the function body is skipped
entirely (no state change). -/
def apply_selected_alternative (alternative_index : Int) (s : AgentState) : AgentState :=
  if 0 ≤ alternative_index ∧ alternative_index < (s.agent_alternatives.length : Int) then
    let selected := s.agent_alternatives.getD alternative_index.toNat ⟨"", "", ""⟩
    { s with
      selected_alternative := some alternative_index
      agent_messages := s.agent_messages ++ [{ role := "user", content := guidanceText selected }]
      agent_events := s.agent_events ++ [.alternative_selected selected alternative_index]
      agent_phase := .thinking }
  else s

/-- One externally triggered step of the `agent_panel` dispatch loop: either a
new question (restart), a model response arriving in a model-round-trip phase,
or a human signal (approve / reject / submit feedback / select). `approve`
carries the external-collaborator behavior for the executor run. -/
inductive Step where
  | newQuestion (user_question : String) (show_chart : Bool)
  | modelReasoning (r : Reasoning)
  | modelToolTurn (content : String) (tool_calls : List ToolCall)
  | approve (env : ExecEnv)
  | rejectSignal
  | submitFeedback (feedback : String)
  | altsReturned (raw : List Alternative)
  | selectAlternative (index : Int)

/-- Embeds the phase dispatch at the bottom of `agent_panel(...)`: each signal
or model response is acted on only in its matching phase (signals delivered in
any other phase leave the state unchanged, matching the button/phase guards of
the source). -/
def applyStep : Step → AgentState → Except (PyError × AgentState) AgentState
  | .newQuestion q sc, _ => .ok (restart_agent q sc)
  | .modelReasoning r, s =>
    .ok (if s.agent_phase = .thinking then run_step_thinking r s else s)
  | .modelToolTurn c tcs, s =>
    .ok (if s.agent_phase = .acting then run_step_acting c tcs s else s)
  | .approve env, s =>
    if s.agent_phase = .awaiting_approval then execute_pending_tools env s else .ok s
  | .rejectSignal, s =>
    .ok (if s.agent_phase = .awaiting_approval then { s with agent_phase := .awaiting_feedback } else s)
  | .submitFeedback fb, s =>
    if s.agent_phase = .awaiting_feedback then reject_pending_tools fb s else .ok s
  | .altsReturned raw, s =>
    if s.agent_phase = .generating_alternatives then generate_alternatives raw s else .ok s
  | .selectAlternative i, s =>
    .ok (if s.agent_phase = .selecting_alternative then apply_selected_alternative i s else s)

/-- Runs a list of steps from a state, stopping with `none` if any step raises. -/
def runStepsE (s : AgentState) : List Step → Option AgentState
  | [] => some s
  | st :: rest =>
    match applyStep st s with
    | .ok s2 => runStepsE s2 rest
    | .error _ => none

/-- Session states reachable from the fresh Streamlit session through completed
(non-raising) orchestration steps. Raising steps terminate the session (spec
section 7 treats escaped exceptions as fatal session failures). -/
inductive Reachable : AgentState → Prop where
  | init : Reachable DEFAULT_STATE
  | step (st : Step) (s s2 : AgentState) :
      Reachable s → applyStep st s = .ok s2 → Reachable s2

/-- Checker for the tool-call/tool-result pairing invariant on a message list.
The first argument is the list of tool calls still awaiting their result
messages: while it is non-empty the very next message must be the matching
tool-role message (so results follow their assistant message immediately, in
emission order, before any other message); when it is empty, an assistant
message opens the expectations of its own tool-call list and every other
message is ignored. The list satisfies the invariant when processing ends with
no outstanding expectation. -/
def pairedAux : List ToolCall → List Message → Bool
  | [], [] => true
  | _ :: _, [] => false
  | [], m :: ms =>
    if m.role = "assistant" then pairedAux m.tool_calls ms else pairedAux [] ms
  | tc :: tcs, m :: ms =>
    if m.role = "tool" ∧ m.tool_call_id = some tc.id then pairedAux tcs ms else false

/-- The pairing invariant: every assistant message carrying tool calls is
immediately followed by exactly one tool-role message per call, matched by id,
before any further message (in particular before the next assistant message). -/
def pairedOk (ms : List Message) : Bool := pairedAux [] ms

/-- `rs` is exactly one tool-role result message per call of `tcs`, in order,
with matching ids. -/
def resultsFor : List ToolCall → List Message → Bool
  | [], [] => true
  | tc :: tcs, m :: ms =>
    if m.role = "tool" ∧ m.tool_call_id = some tc.id then resultsFor tcs ms else false
  | _, _ => false

/-- The synthetic tool-result messages appended by `reject_pending_tools`. -/
def rejectResults (feedback : String) (tcs : List ToolCall) : List Message :=
  tcs.map (fun tc => toolResultMsg (rejectionText feedback) tc.id)

/-- Concrete fixture: a QueryMovieDB tool call as the model would emit it. -/
def tcQuery : ToolCall :=
  { id := "call_1", name := "QueryMovieDB"
    arguments := "\x7b\"code\": \"print(len(df))\"\x7d" }

/-- Concrete fixture: a second QueryMovieDB tool call. -/
def tcQuery2 : ToolCall :=
  { id := "call_2", name := "QueryMovieDB"
    arguments := "\x7b\"code\": \"print(df.median())\"\x7d" }

/-- Concrete fixture: a tool call whose code loops forever, so the subprocess
hits the 10-second timeout. -/
def tcLoop : ToolCall :=
  { id := "call_9", name := "QueryMovieDB"
    arguments := "\x7b\"code\": \"while True: pass\"\x7d" }

/-- Concrete fixture: a CreateChart tool call whose spec string is not JSON. -/
def tcChart : ToolCall :=
  { id := "call_7", name := "CreateChart"
    arguments := "\x7b\"vega_lite_spec\": \"not json\"\x7d" }

/-- Concrete fixture: a tool call whose function name matches neither
QueryMovieDB nor CreateChart. -/
def tcRogue : ToolCall :=
  { id := "call_3", name := "DeleteDatabase", arguments := "\x7b\x7d" }

/-- Concrete external-collaborator behavior where the generated code runs
quickly and prints one line. -/
def envQuery : ExecEnv :=
  { runCode := fun c =>
      if c = "print(len(df))" then .completed 0 "100\n" ""
      else .completed 1 "" "NameError: name is not defined"
    argsOf := fun a =>
      if a = tcQuery.arguments then .ok [("code", "print(len(df))")]
      else .error "Expecting value: line 1 column 1 (char 0)"
    jsonLoadsSpec := fun _ => .error "Expecting value: line 1 column 1 (char 0)"
    fromDict := fun _ => .ok () }

/-- Concrete external-collaborator behavior where the generated code overruns
the 10-second limit, so `subprocess.run` raises `TimeoutExpired`. -/
def envTimeout : ExecEnv :=
  { runCode := fun _ => .timedOut
    argsOf := fun a =>
      if a = tcLoop.arguments then .ok [("code", "while True: pass")]
      else .error "Expecting value: line 1 column 1 (char 0)"
    jsonLoadsSpec := fun _ => .error "Expecting value: line 1 column 1 (char 0)"
    fromDict := fun _ => .ok () }

/-- Concrete external-collaborator behavior where the chart spec string fails
`json.loads`. -/
def envBadChart : ExecEnv :=
  { runCode := fun _ => .completed 0 "" ""
    argsOf := fun a =>
      if a = tcChart.arguments then .ok [("vega_lite_spec", "not json")]
      else .error "Expecting value: line 1 column 1 (char 0)"
    jsonLoadsSpec := fun _ => .error "Expecting value: line 1 column 1 (char 0)"
    fromDict := fun _ => .ok () }

/-- Concrete external-collaborator behavior for the unknown-tool-name fixture
(its `arguments` string is the empty JSON object). -/
def envRogue : ExecEnv :=
  { runCode := fun _ => .completed 0 "" ""
    argsOf := fun _ => .ok []
    jsonLoadsSpec := fun _ => .error "Expecting value: line 1 column 1 (char 0)"
    fromDict := fun _ => .ok () }

/-- Concrete fixture alternatives (a model response of exactly 3). -/
def altA : Alternative :=
  { title := "Median-based summary"
    description := "Compute the median rating instead of the mean."
    rationale := "The median is robust to outliers." }

/-- Second fixture alternative. -/
def altB : Alternative :=
  { title := "Genre-level aggregation"
    description := "Aggregate ratings per genre before summarizing."
    rationale := "Per-genre numbers give more detail." }

/-- Third fixture alternative. -/
def altC : Alternative :=
  { title := "Distribution overview"
    description := "Report quartiles of the rating distribution."
    rationale := "A fuller picture than one number." }

/-- Concrete session trace: question, reasoning, tool proposal, rejection with
feedback, alternative generation, selection of alternative 1, then a second
reasoning turn and a second tool proposal. -/
def traceStaleAlts : List Step :=
  [ .newQuestion "What is the average IMDB rating?" false
  , .modelReasoning { reason := "I need to run code.", use_tool := true, answer := none }
  , .modelToolTurn "" [tcQuery]
  , .rejectSignal
  , .submitFeedback "use median instead"
  , .altsReturned [altA, altB, altC]
  , .selectAlternative 1
  , .modelReasoning { reason := "Compute the median.", use_tool := true, answer := none }
  , .modelToolTurn "" [tcQuery2] ]

/-- The session state awaiting approval of the first proposal. -/
def sAwaiting : AgentState :=
  (runStepsE DEFAULT_STATE (traceStaleAlts.take 3)).getD DEFAULT_STATE

/-- The session state in the generating-alternatives phase. -/
def sGenerating : AgentState :=
  (runStepsE DEFAULT_STATE (traceStaleAlts.take 5)).getD DEFAULT_STATE

/-- The session state in the selecting-alternative phase. -/
def sSelecting : AgentState :=
  (runStepsE DEFAULT_STATE (traceStaleAlts.take 6)).getD DEFAULT_STATE

/-- The final state of `traceStaleAlts`: a second proposal is pending while
the alternatives stored before the first selection are still present. -/
def sStaleAlts : AgentState :=
  (runStepsE DEFAULT_STATE traceStaleAlts).getD DEFAULT_STATE

/-- Trace where the human approves the first proposal. -/
def traceApproved : List Step :=
  traceStaleAlts.take 3 ++ [Step.approve envQuery]

/-- The session state after the approved execution. -/
def sApproved : AgentState :=
  (runStepsE DEFAULT_STATE traceApproved).getD DEFAULT_STATE

/-- Trace leading to a pending infinite-loop code proposal. -/
def traceToTimeout : List Step :=
  [ .newQuestion "Keep the process busy." false
  , .modelReasoning { reason := "Run a loop.", use_tool := true, answer := none }
  , .modelToolTurn "" [tcLoop] ]

/-- The state awaiting approval of the infinite-loop proposal. -/
def sAwaitTimeout : AgentState :=
  (runStepsE DEFAULT_STATE traceToTimeout).getD DEFAULT_STATE

/-- Trace leading to a pending bad-JSON chart proposal. -/
def traceChart : List Step :=
  [ .newQuestion "Plot the ratings." true
  , .modelReasoning { reason := "I will create a chart.", use_tool := true, answer := none }
  , .modelToolTurn "" [tcChart] ]

/-- The state awaiting approval of the bad-JSON chart proposal. -/
def sAwaitChart : AgentState :=
  (runStepsE DEFAULT_STATE traceChart).getD DEFAULT_STATE

/-- Concrete fixture: a CreateChart tool call whose spec string is well-formed
JSON but fails Vega-Lite grammar validation in `alt.Chart.from_dict`. -/
def tcChartGrammar : ToolCall :=
  { id := "call_8", name := "CreateChart"
    arguments := "\x7b\"vega_lite_spec\": \"\x7b\\\"mark\\\": \\\"sparkle\\\"\x7d\"\x7d" }

/-- Concrete external-collaborator behavior where the chart spec string parses
as JSON but `alt.Chart.from_dict` raises a grammar-validation error. -/
def envBadGrammar : ExecEnv :=
  { runCode := fun _ => .completed 0 "" ""
    argsOf := fun a =>
      if a = tcChartGrammar.arguments then
        .ok [("vega_lite_spec", "\x7b\"mark\": \"sparkle\"\x7d")]
      else .error "Expecting value: line 1 column 1 (char 0)"
    jsonLoadsSpec := fun a =>
      if a = "\x7b\"mark\": \"sparkle\"\x7d" then .ok { raw := "\x7b\"mark\": \"sparkle\"\x7d" }
      else .error "Expecting value: line 1 column 1 (char 0)"
    fromDict := fun _ => .error "sparkle is an invalid value for mark" }

/-- Trace leading to a pending grammar-invalid chart proposal. -/
def traceChartGrammar : List Step :=
  [ .newQuestion "Plot the ratings." true
  , .modelReasoning { reason := "I will create a chart.", use_tool := true, answer := none }
  , .modelToolTurn "" [tcChartGrammar] ]

/-- The state awaiting approval of the grammar-invalid chart proposal. -/
def sAwaitChartGrammar : AgentState :=
  (runStepsE DEFAULT_STATE traceChartGrammar).getD DEFAULT_STATE

/-- Trace leading to a pending unknown-tool-name proposal. -/
def traceRogue : List Step :=
  [ .newQuestion "Clean up." false
  , .modelReasoning { reason := "I will use a tool.", use_tool := true, answer := none }
  , .modelToolTurn "" [tcRogue] ]

/-- The state awaiting approval of the unknown-tool-name proposal. -/
def sAwaitRogue : AgentState :=
  (runStepsE DEFAULT_STATE traceRogue).getD DEFAULT_STATE

lemma pairedAux_append (new : List Message) :
    ∀ (old : List Message) (exp : List ToolCall), pairedAux exp old = true →
      pairedAux exp (old ++ new) = pairedAux [] new := by
  intro old
  induction old with
  | nil =>
    intro exp h
    cases exp with
    | nil => simp
    | cons tc tcs => simp [pairedAux] at h
  | cons m ms ih =>
    intro exp h
    cases exp with
    | nil =>
      by_cases hr : m.role = "assistant"
      · simp only [pairedAux, if_pos hr] at h ⊢
        exact ih _ h
      · simp only [pairedAux, if_neg hr] at h ⊢
        exact ih _ h
    | cons tc tcs =>
      by_cases hc : m.role = "tool" ∧ m.tool_call_id = some tc.id
      · simp only [pairedAux, if_pos hc] at h ⊢
        exact ih _ h
      · simp only [pairedAux, if_neg hc] at h
        exact absurd h (by simp)

lemma pairedAux_of_resultsFor :
    ∀ (rs : List Message) (tcs : List ToolCall), resultsFor tcs rs = true →
      pairedAux tcs rs = true := by
  intro rs
  induction rs with
  | nil =>
    intro tcs h
    cases tcs with
    | nil => rfl
    | cons tc tcs => simp [resultsFor] at h
  | cons m ms ih =>
    intro tcs h
    cases tcs with
    | nil => simp [resultsFor] at h
    | cons tc tcs =>
      by_cases hc : m.role = "tool" ∧ m.tool_call_id = some tc.id
      · simp only [resultsFor, if_pos hc] at h
        simp only [pairedAux, if_pos hc]
        exact ih _ h
      · simp only [resultsFor, if_neg hc] at h
        exact absurd h (by simp)

lemma pairedAux_skip_results :
    ∀ (rs : List Message) (tcs : List ToolCall), resultsFor tcs rs = true →
      pairedAux [] rs = true := by
  intro rs
  induction rs with
  | nil => intro tcs _; rfl
  | cons m ms ih =>
    intro tcs h
    cases tcs with
    | nil => simp [resultsFor] at h
    | cons tc tcs =>
      by_cases hc : m.role = "tool" ∧ m.tool_call_id = some tc.id
      · simp only [resultsFor, if_pos hc] at h
        have hr : m.role ≠ "assistant" := by
          rw [hc.1]; decide
        simp only [pairedAux, if_neg hr]
        exact ih _ h
      · simp only [resultsFor, if_neg hc] at h
        exact absurd h (by simp)

lemma pairedOk_append_block (old : List Message) (pm : Message) (rs : List Message)
    (hold : pairedOk old = true) (hrs : resultsFor pm.tool_calls rs = true) :
    pairedOk (old ++ pm :: rs) = true := by
  unfold pairedOk at hold ⊢
  rw [pairedAux_append (pm :: rs) old [] hold]
  by_cases hr : pm.role = "assistant"
  · simp only [pairedAux, if_pos hr]
    exact pairedAux_of_resultsFor rs pm.tool_calls hrs
  · simp only [pairedAux, if_neg hr]
    exact pairedAux_skip_results rs pm.tool_calls hrs

lemma pairedOk_append_plain (old : List Message) (m : Message)
    (hold : pairedOk old = true) (hr : m.role ≠ "assistant") :
    pairedOk (old ++ [m]) = true := by
  unfold pairedOk at hold ⊢
  rw [pairedAux_append [m] old [] hold]
  simp [pairedAux, if_neg hr]

lemma pairedOk_append_assistant_no_calls (old : List Message) (m : Message)
    (hold : pairedOk old = true) (hcalls : m.tool_calls = []) :
    pairedOk (old ++ [m]) = true := by
  unfold pairedOk at hold ⊢
  rw [pairedAux_append [m] old [] hold]
  by_cases hr : m.role = "assistant"
  · simp [pairedAux, hr, hcalls]
  · simp [pairedAux, hr]

lemma resultsFor_rejectResults (feedback : String) :
    ∀ tcs : List ToolCall, resultsFor tcs (rejectResults feedback tcs) = true := by
  intro tcs
  induction tcs with
  | nil => rfl
  | cons tc rest ih =>
    simpa [rejectResults, resultsFor, toolResultMsg] using ih

lemma execLoop_ok_messages (env : ExecEnv) :
    ∀ (tcs : List ToolCall) (lr : Option String) (s s2 : AgentState),
      execLoop env lr s tcs = .ok s2 →
      ∃ rs, s2.agent_messages = s.agent_messages ++ rs ∧ resultsFor tcs rs = true := by
  intro tcs
  induction tcs with
  | nil =>
    intro lr s s2 hok
    simp only [execLoop, Except.ok.injEq] at hok
    exact ⟨[], by simp [← hok], rfl⟩
  | cons tc rest ih =>
    intro lr s s2 hok
    simp only [execLoop] at hok
    cases ha : env.argsOf tc.arguments with
    | error e => simp [ha] at hok
    | ok args =>
      simp only [ha] at hok
      by_cases hq : tc.name = "QueryMovieDB"
      · simp only [if_pos hq] at hok
        cases hl : args.lookup "code" with
        | none => simp [hl] at hok
        | some code =>
          simp only [hl] at hok
          cases hqr : query_movie_db (env.runCode code) with
          | error err => simp [hqr] at hok
          | ok result =>
            simp only [hqr] at hok
            obtain ⟨rs, hmsg, hres⟩ := ih _ _ _ hok
            refine ⟨toolResultMsg result tc.id :: rs, ?_, ?_⟩
            · simp only [hmsg]
              simp
            · simp [resultsFor, toolResultMsg, hres]
      · simp only [if_neg hq] at hok
        by_cases hc : tc.name = "CreateChart"
        · simp only [if_pos hc] at hok
          cases hl : args.lookup "vega_lite_spec" with
          | none => simp [hl] at hok
          | some specStr =>
            simp only [hl] at hok
            cases hv : (validate_chart env specStr).1 with
            | none =>
              simp only [hv] at hok
              obtain ⟨rs, hmsg, hres⟩ := ih _ _ _ hok
              refine ⟨toolResultMsg (validate_chart env specStr).2 tc.id :: rs, ?_, ?_⟩
              · simp only [hmsg]
                simp
              · simp [resultsFor, toolResultMsg, hres]
            | some spec =>
              simp only [hv] at hok
              obtain ⟨rs, hmsg, hres⟩ := ih _ _ _ hok
              refine ⟨toolResultMsg (validate_chart env specStr).2 tc.id :: rs, ?_, ?_⟩
              · simp only [hmsg]
                simp
              · simp [resultsFor, toolResultMsg, hres]
        · simp only [if_neg hc] at hok
          cases lr with
          | none => simp at hok
          | some r =>
            simp only at hok
            obtain ⟨rs, hmsg, hres⟩ := ih _ _ _ hok
            refine ⟨toolResultMsg r tc.id :: rs, ?_, ?_⟩
            · simp only [hmsg]
              simp
            · simp [resultsFor, toolResultMsg, hres]

lemma rejectLoop_spec (rejMsg feedback : String) :
    ∀ (tcs : List ToolCall) (s : AgentState),
      rejectLoop rejMsg feedback s tcs =
        { s with
          agent_events := s.agent_events ++ tcs.map (fun tc => Event.rejected tc.name feedback)
          agent_messages := s.agent_messages ++ tcs.map (fun tc => toolResultMsg rejMsg tc.id) } := by
  intro tcs
  induction tcs with
  | nil => intro s; simp [rejectLoop]
  | cons tc rest ih =>
    intro s
    rw [rejectLoop, ih]
    simp

lemma run_step_thinking_messages (r : Reasoning) (s : AgentState) :
    (run_step_thinking r s).agent_messages =
      s.agent_messages ++ [{ role := "assistant", content := r.reason }] := by
  unfold run_step_thinking
  cases hr : r.use_tool <;> simp [hr]

lemma run_step_acting_messages (c : String) (tcs : List ToolCall) (s : AgentState) :
    (run_step_acting c tcs s).agent_messages = s.agent_messages := by
  unfold run_step_acting
  split <;> rfl

lemma apply_selected_alternative_alternatives (i : Int) (s : AgentState) :
    (apply_selected_alternative i s).agent_alternatives = s.agent_alternatives := by
  unfold apply_selected_alternative
  split <;> rfl

lemma execute_ok_spec (env : ExecEnv) (s s2 : AgentState) (pm : Message)
    (hpm : s.agent_pending_message = some pm)
    (hok : execute_pending_tools env s = .ok s2) :
    ∃ rs, s2.agent_messages = s.agent_messages ++ pm :: rs ∧
      resultsFor pm.tool_calls rs = true ∧
      s2.agent_phase = Phase.thinking ∧
      s2.agent_pending_message = none := by
  unfold execute_pending_tools at hok
  simp only [hpm] at hok
  cases he : execLoop env none
      { s with agent_messages := s.agent_messages ++ [pm], agent_pending_message := some pm }
      pm.tool_calls with
  | error e => rw [he] at hok; exact absurd hok (by simp)
  | ok s1 =>
    rw [he] at hok
    simp only [Except.ok.injEq] at hok
    obtain ⟨rs, hmsg, hres⟩ := execLoop_ok_messages env _ _ _ _ he
    refine ⟨rs, ?_, hres, ?_, ?_⟩
    · rw [← hok]
      show s1.agent_messages = _
      rw [hmsg]
      show (s.agent_messages ++ [pm]) ++ rs = _
      rw [List.append_assoc]
      rfl
    · rw [← hok]
    · rw [← hok]

lemma reject_ok_spec (fb : String) (s : AgentState) (pm : Message)
    (hpm : s.agent_pending_message = some pm) :
    reject_pending_tools fb s = .ok
      { s with
        agent_phase := .generating_alternatives
        agent_pending_message := none
        agent_events := s.agent_events ++ pm.tool_calls.map (fun tc => Event.rejected tc.name fb)
        agent_messages := s.agent_messages ++ pm :: rejectResults fb pm.tool_calls } := by
  unfold reject_pending_tools
  simp only [hpm]
  rw [rejectLoop_spec]
  simp [rejectResults, List.append_assoc]

lemma applyStep_pairedOk (st : Step) (s s2 : AgentState)
    (h : pairedOk s.agent_messages = true) (hs : applyStep st s = .ok s2) :
    pairedOk s2.agent_messages = true := by
  cases st with
  | newQuestion q sc =>
    simp only [applyStep, Except.ok.injEq] at hs
    rw [← hs]
    rfl
  | modelReasoning r =>
    simp only [applyStep, Except.ok.injEq] at hs
    rw [← hs]
    by_cases hp : s.agent_phase = Phase.thinking
    · rw [if_pos hp, run_step_thinking_messages]
      exact pairedOk_append_assistant_no_calls _ _ h rfl
    · rw [if_neg hp]; exact h
  | modelToolTurn c tcs =>
    simp only [applyStep, Except.ok.injEq] at hs
    rw [← hs]
    by_cases hp : s.agent_phase = Phase.acting
    · rw [if_pos hp, run_step_acting_messages]; exact h
    · rw [if_neg hp]; exact h
  | approve env =>
    simp only [applyStep] at hs
    by_cases hp : s.agent_phase = Phase.awaiting_approval
    · rw [if_pos hp] at hs
      cases hpm : s.agent_pending_message with
      | none => unfold execute_pending_tools at hs; simp [hpm] at hs
      | some pm =>
        obtain ⟨rs, hmsg, hres, _, _⟩ := execute_ok_spec env s s2 pm hpm hs
        rw [hmsg]
        exact pairedOk_append_block _ _ _ h hres
    · rw [if_neg hp] at hs
      simp only [Except.ok.injEq] at hs
      rw [← hs]; exact h
  | rejectSignal =>
    simp only [applyStep, Except.ok.injEq] at hs
    rw [← hs]
    split <;> exact h
  | submitFeedback fb =>
    simp only [applyStep] at hs
    by_cases hp : s.agent_phase = Phase.awaiting_feedback
    · rw [if_pos hp] at hs
      cases hpm : s.agent_pending_message with
      | none => unfold reject_pending_tools at hs; simp [hpm] at hs
      | some pm =>
        rw [reject_ok_spec fb s pm hpm] at hs
        simp only [Except.ok.injEq] at hs
        rw [← hs]
        show pairedOk (s.agent_messages ++ pm :: rejectResults fb pm.tool_calls) = true
        exact pairedOk_append_block _ _ _ h (resultsFor_rejectResults fb pm.tool_calls)
    · rw [if_neg hp] at hs
      simp only [Except.ok.injEq] at hs
      rw [← hs]; exact h
  | altsReturned raw =>
    simp only [applyStep] at hs
    by_cases hp : s.agent_phase = Phase.generating_alternatives
    · rw [if_pos hp] at hs
      unfold generate_alternatives at hs
      by_cases h3 : raw.length = 3
      · rw [if_pos h3] at hs
        simp only [Except.ok.injEq] at hs
        rw [← hs]; exact h
      · rw [if_neg h3] at hs
        exact absurd hs (by simp)
    · rw [if_neg hp] at hs
      simp only [Except.ok.injEq] at hs
      rw [← hs]; exact h
  | selectAlternative i =>
    simp only [applyStep, Except.ok.injEq] at hs
    rw [← hs]
    by_cases hp : s.agent_phase = Phase.selecting_alternative
    · rw [if_pos hp]
      unfold apply_selected_alternative
      split
      · show pairedOk (s.agent_messages ++
          [{ role := "user",
             content := guidanceText (s.agent_alternatives.getD i.toNat ⟨"", "", ""⟩) }]) = true
        apply pairedOk_append_plain _ _ h
        intro hcon
        have hcon2 : ("user" : String) = "assistant" := hcon
        exact absurd hcon2 (by decide)
      · exact h
    · rw [if_neg hp]; exact h

lemma reachable_runStepsE :
    ∀ (sts : List Step) (s s2 : AgentState),
      Reachable s → runStepsE s sts = some s2 → Reachable s2 := by
  intro sts
  induction sts with
  | nil =>
    intro s s2 hr h
    simp only [runStepsE, Option.some.injEq] at h
    rw [← h]; exact hr
  | cons st rest ih =>
    intro s s2 hr h
    unfold runStepsE at h
    cases ha : applyStep st s with
    | ok s1 =>
      rw [ha] at h
      exact ih s1 s2 (Reachable.step st s s1 hr ha) h
    | error e => rw [ha] at h; simp at h

lemma reachable_pending_none (s : AgentState) (h : Reachable s) :
    (s.agent_phase = Phase.generating_alternatives ∨
      s.agent_phase = Phase.selecting_alternative) →
    s.agent_pending_message = none := by
  induction h with
  | init => intro _; rfl
  | step st sa s2 hr hs ih =>
    cases st with
    | newQuestion q sc =>
      simp only [applyStep, Except.ok.injEq] at hs
      rw [← hs]
      intro hph
      simp [restart_agent] at hph
    | modelReasoning r =>
      simp only [applyStep, Except.ok.injEq] at hs
      rw [← hs]
      by_cases hp : sa.agent_phase = Phase.thinking
      · rw [if_pos hp]
        intro hph
        unfold run_step_thinking at hph
        cases hru : r.use_tool <;> simp [hru] at hph
      · rw [if_neg hp]; exact ih
    | modelToolTurn c tcs =>
      simp only [applyStep, Except.ok.injEq] at hs
      rw [← hs]
      by_cases hp : sa.agent_phase = Phase.acting
      · rw [if_pos hp]
        intro hph
        unfold run_step_acting at hph
        cases he : tcs.isEmpty <;> simp [he] at hph
      · rw [if_neg hp]; exact ih
    | approve env =>
      simp only [applyStep] at hs
      by_cases hp : sa.agent_phase = Phase.awaiting_approval
      · rw [if_pos hp] at hs
        cases hpm : sa.agent_pending_message with
        | none => unfold execute_pending_tools at hs; simp [hpm] at hs
        | some pm =>
          obtain ⟨_, _, _, _, hpd⟩ := execute_ok_spec env sa s2 pm hpm hs
          intro _; exact hpd
      · rw [if_neg hp] at hs
        simp only [Except.ok.injEq] at hs
        rw [← hs]; exact ih
    | rejectSignal =>
      simp only [applyStep, Except.ok.injEq] at hs
      rw [← hs]
      by_cases hp : sa.agent_phase = Phase.awaiting_approval
      · rw [if_pos hp]
        intro hph
        simp at hph
      · rw [if_neg hp]; exact ih
    | submitFeedback fb =>
      simp only [applyStep] at hs
      by_cases hp : sa.agent_phase = Phase.awaiting_feedback
      · rw [if_pos hp] at hs
        cases hpm : sa.agent_pending_message with
        | none => unfold reject_pending_tools at hs; simp [hpm] at hs
        | some pm =>
          rw [reject_ok_spec fb sa pm hpm] at hs
          simp only [Except.ok.injEq] at hs
          intro _
          rw [← hs]
      · rw [if_neg hp] at hs
        simp only [Except.ok.injEq] at hs
        rw [← hs]; exact ih
    | altsReturned raw =>
      simp only [applyStep] at hs
      by_cases hp : sa.agent_phase = Phase.generating_alternatives
      · rw [if_pos hp] at hs
        unfold generate_alternatives at hs
        by_cases h3 : raw.length = 3
        · rw [if_pos h3] at hs
          simp only [Except.ok.injEq] at hs
          intro _
          rw [← hs]
          show sa.agent_pending_message = none
          exact ih (Or.inl hp)
        · rw [if_neg h3] at hs
          exact absurd hs (by simp)
      · rw [if_neg hp] at hs
        simp only [Except.ok.injEq] at hs
        rw [← hs]; exact ih
    | selectAlternative i =>
      simp only [applyStep, Except.ok.injEq] at hs
      rw [← hs]
      by_cases hp : sa.agent_phase = Phase.selecting_alternative
      · rw [if_pos hp]
        unfold apply_selected_alternative
        split
        · intro hph
          simp at hph
        · exact ih
      · rw [if_neg hp]; exact ih

lemma getD_of_get? {α : Type} :
    ∀ (l : List α) (n : Nat) (d a : α), l.get? n = some a → l.getD n d = a := by
  intro l
  induction l with
  | nil => intro n d a h; simp at h
  | cons x xs ih =>
    intro n d a h
    cases n with
    | zero =>
      simp only [List.get?] at h
      simp only [Option.some.injEq] at h
      simp [List.getD, h]
    | succ k =>
      simp only [List.get?] at h
      simp only [List.getD] at ih ⊢
      exact ih k d a h

/-- C1: in every session state reachable through completed transitions
(approve-path execution and reject-path alike), each assistant message
carrying tool-call requests is followed in the message list, before the next
assistant message, by exactly one tool-role message per requested call, with
a tool_call_id matching that call's id (`pairedOk` additionally pins down
that the result messages follow immediately and in emission order). -/
theorem C1_tool_call_pairing (s : AgentState) (h : Reachable s) :
    pairedOk s.agent_messages = true := by
  induction h with
  | init => rfl
  | step st sa s2 hr hs ih => exact applyStep_pairedOk st sa s2 ih hs

/-- Witness for C1 at the concrete approved-execution trace. -/
theorem C1_tool_call_pairing_witness : pairedOk sApproved.agent_messages = true :=
  C1_tool_call_pairing sApproved
    (reachable_runStepsE traceApproved DEFAULT_STATE sApproved Reachable.init (by decide))

/-- C2 counterexample: a reachable session state (first proposal rejected,
alternatives generated, alternative selected, second proposal pending) in
which pendingAction is populated while the alternatives list is still
non-empty — the code never clears `agent_alternatives` on selection, so the
claimed mutual exclusion fails. -/
theorem C2_counterexample :
    Reachable sStaleAlts ∧
    sStaleAlts.agent_pending_message ≠ none ∧
    sStaleAlts.agent_alternatives ≠ [] ∧
    sStaleAlts.agent_phase = Phase.awaiting_approval :=
  ⟨reachable_runStepsE traceStaleAlts DEFAULT_STATE sStaleAlts Reachable.init (by decide),
   by decide, by decide, by decide⟩

/-- C2 (amended): pendingAction is cleared before alternatives are populated —
in every reachable state whose phase is generating_alternatives or
selecting_alternative the pending message is absent — but alternatives are
never cleared by selection (they persist until the next session restart), so
a later pendingAction can coexist with the stale alternatives list. -/
theorem C2_amended (s : AgentState) (i : Int) (h : Reachable s) :
    ((s.agent_phase = Phase.generating_alternatives ∨
        s.agent_phase = Phase.selecting_alternative) →
      s.agent_pending_message = none) ∧
    (apply_selected_alternative i s).agent_alternatives = s.agent_alternatives :=
  ⟨reachable_pending_none s h, apply_selected_alternative_alternatives i s⟩

/-- Witness for the amended C2 at the concrete selecting-alternative state. -/
theorem C2_amended_witness :
    sSelecting.agent_pending_message = none ∧
    (apply_selected_alternative 1 sSelecting).agent_alternatives =
      sSelecting.agent_alternatives :=
  ⟨(C2_amended sSelecting 1
      (reachable_runStepsE (traceStaleAlts.take 6) DEFAULT_STATE sSelecting
        Reachable.init (by decide))).1 (Or.inr (by decide)),
   (C2_amended sSelecting 1
      (reachable_runStepsE (traceStaleAlts.take 6) DEFAULT_STATE sSelecting
        Reachable.init (by decide))).2⟩

/-- C3 counterexample: a timeout of the executed code is NOT captured as a
tool-result string — `subprocess.run(..., timeout=10)` raises
`subprocess.TimeoutExpired`, nothing catches it, and the exception escapes
the executor, leaving the appended assistant tool-call message without any
tool-result message. -/
theorem C3_counterexample :
    query_movie_db RunOutcome.timedOut = Except.error PyError.timeoutExpired ∧
    execute_pending_tools envTimeout sAwaitTimeout =
      Except.error (PyError.timeoutExpired,
        { sAwaitTimeout with
            agent_messages := sAwaitTimeout.agent_messages ++ [assistantToolMsg "" [tcLoop]] }) :=
  ⟨rfl, by rfl⟩

/-- C3 (amended): a raised error of the executed code (non-zero return code:
the captured stderr text becomes the tool result) and empty output (the fixed
no-output message becomes the tool result) are non-fatal; but a timeout
raises `subprocess.TimeoutExpired`, which escapes the executor uncaught. -/
theorem C3_amended (rc : Int) (outEmpty outFull err : String)
    (hrc : rc ≠ 0) (hEmpty : pyStrip outEmpty = "") (hFull : pyStrip outFull ≠ "") :
    query_movie_db (.completed rc outEmpty err) = .ok err ∧
    query_movie_db (.completed 0 outEmpty err) =
      .ok "No output. Did you forget to use print()?" ∧
    query_movie_db (.completed 0 outFull err) = .ok outFull ∧
    (query_movie_db .timedOut).isOk = false := by
  refine ⟨?_, ?_, ?_, rfl⟩
  · simp [query_movie_db, hrc]
  · simp [query_movie_db, hEmpty]
  · simp [query_movie_db, hFull]

/-- Witness for the amended C3 at concrete subprocess outcomes. -/
theorem C3_amended_witness :
    query_movie_db (.completed 1 "  \n" "ZeroDivisionError: division by zero") =
      .ok "ZeroDivisionError: division by zero" ∧
    query_movie_db (.completed 0 "  \n" "ZeroDivisionError: division by zero") =
      .ok "No output. Did you forget to use print()?" ∧
    query_movie_db (.completed 0 "7.9\n" "ZeroDivisionError: division by zero") =
      .ok "7.9\n" ∧
    (query_movie_db .timedOut).isOk = false :=
  C3_amended 1 "  \n" "7.9\n" "ZeroDivisionError: division by zero"
    (by decide) (by decide) (by decide)

/-- C4: submitting feedback (empty or non-empty) always moves the phase to
generating_alternatives (which is not thinking), appends per pending call one
Rejected event carrying the feedback and one synthetic tool-result message
whose content is the fixed rejection text, suffixed with the feedback exactly
when it is non-empty, and clears the pending message. -/
theorem C4_reject_flow (s : AgentState) (pm : Message) (fb : String)
    (hpm : s.agent_pending_message = some pm) :
    reject_pending_tools fb s = .ok
      { s with
        agent_phase := .generating_alternatives
        agent_pending_message := none
        agent_events := s.agent_events ++
          pm.tool_calls.map (fun tc => Event.rejected tc.name fb)
        agent_messages := s.agent_messages ++ pm :: rejectResults fb pm.tool_calls } ∧
    Phase.generating_alternatives ≠ Phase.thinking ∧
    (fb = "" → rejectionText fb = "User rejected this action.") ∧
    (fb ≠ "" → rejectionText fb = "User rejected this action. User feedback: " ++ fb) := by
  refine ⟨reject_ok_spec fb s pm hpm, by decide, ?_, ?_⟩
  · intro he; simp [rejectionText, he]
  · intro he; simp [rejectionText, he]

/-- Witness for C4 at the concrete awaiting-approval state, with empty and
non-empty feedback. -/
theorem C4_reject_flow_witness :
    reject_pending_tools "" sAwaiting = .ok
      { sAwaiting with
        agent_phase := .generating_alternatives
        agent_pending_message := none
        agent_events := sAwaiting.agent_events ++
          (assistantToolMsg "" [tcQuery]).tool_calls.map (fun tc => Event.rejected tc.name "")
        agent_messages := sAwaiting.agent_messages ++
          assistantToolMsg "" [tcQuery] ::
            rejectResults "" (assistantToolMsg "" [tcQuery]).tool_calls } ∧
    rejectionText "use median instead" =
      "User rejected this action. User feedback: use median instead" :=
  ⟨(C4_reject_flow sAwaiting (assistantToolMsg "" [tcQuery]) "" (by decide)).1,
   (C4_reject_flow sAwaiting (assistantToolMsg "" [tcQuery]) "use median instead"
      (by decide)).2.2.2 (by decide)⟩

/-- C5: when the model returns exactly 3 alternatives the generation step
stores them (so the stored collection has exactly 3 entries), appends one
AlternativesGenerated event, and moves the phase to selecting_alternative;
when the model returns any other count, the schema validation of the parse
call raises before any state mutation (fatal, no local repair). -/
theorem C5_exactly_three_alternatives (s : AgentState) (raw rawBad : List Alternative)
    (h3 : raw.length = 3) (hbad : rawBad.length ≠ 3) :
    generate_alternatives raw s = .ok
      { s with
        agent_alternatives := raw
        agent_events := s.agent_events ++ [Event.alternatives_generated raw]
        agent_phase := .selecting_alternative } ∧
    (generate_alternatives raw s).map (fun s2 => s2.agent_alternatives.length) = .ok 3 ∧
    generate_alternatives rawBad s = .error (.validationError, s) := by
  refine ⟨?_, ?_, ?_⟩
  · simp [generate_alternatives, h3]
  · simp [generate_alternatives, h3, Except.map]
  · simp [generate_alternatives, hbad]

/-- Witness for C5 at the concrete generating-alternatives state. -/
theorem C5_exactly_three_alternatives_witness :
    generate_alternatives [altA, altB, altC] sGenerating = .ok
      { sGenerating with
        agent_alternatives := [altA, altB, altC]
        agent_events := sGenerating.agent_events ++
          [Event.alternatives_generated [altA, altB, altC]]
        agent_phase := .selecting_alternative } ∧
    generate_alternatives [altA] sGenerating = .error (.validationError, sGenerating) :=
  ⟨(C5_exactly_three_alternatives sGenerating [altA, altB, altC] [altA]
      rfl (by decide)).1,
   (C5_exactly_three_alternatives sGenerating [altA, altB, altC] [altA]
      rfl (by decide)).2.2⟩

/-- C6: selecting an in-range alternative index i appends exactly one
user-role guidance message quoting that alternative's title and description,
appends exactly one AlternativeSelected event carrying index i, records the
chosen index, and moves the phase to thinking. -/
theorem C6_select_in_range (s : AgentState) (i : Int) (sel : Alternative)
    (h0 : 0 ≤ i) (hsel : s.agent_alternatives.get? i.toNat = some sel) :
    apply_selected_alternative i s =
      { s with
        selected_alternative := some i
        agent_messages := s.agent_messages ++
          [{ role := "user"
             content := "User selected approach: '" ++ sel.title ++ "'. "
               ++ sel.description ++ ". Please proceed with this strategy." }]
        agent_events := s.agent_events ++ [Event.alternative_selected sel i]
        agent_phase := .thinking } := by
  have hlt : i.toNat < s.agent_alternatives.length := by
    by_contra hge
    push_neg at hge
    rw [List.get?_eq_none.mpr hge] at hsel
    exact absurd hsel (by simp)
  have hcond : 0 ≤ i ∧ i < (s.agent_alternatives.length : Int) := ⟨h0, by omega⟩
  unfold apply_selected_alternative
  rw [if_pos hcond]
  rw [getD_of_get? s.agent_alternatives i.toNat ⟨"", "", ""⟩ sel hsel]
  rfl

/-- Witness for C6: selecting index 1 at the concrete selecting state. -/
theorem C6_select_in_range_witness :
    apply_selected_alternative 1 sSelecting =
      { sSelecting with
        selected_alternative := some 1
        agent_messages := sSelecting.agent_messages ++
          [{ role := "user"
             content := "User selected approach: '" ++ altB.title ++ "'. "
               ++ altB.description ++ ". Please proceed with this strategy." }]
        agent_events := sSelecting.agent_events ++ [Event.alternative_selected altB 1]
        agent_phase := .thinking } :=
  C6_select_in_range sSelecting 1 altB (by decide) (by decide)

/-- C7: selecting an out-of-range alternative index (negative, or at least 3
when exactly 3 alternatives are stored) is a complete no-op: no event, no
message, no recorded index, no phase change. -/
theorem C7_select_out_of_range (s : AgentState) (i : Int)
    (hlen : s.agent_alternatives.length = 3) (hout : i < 0 ∨ 3 ≤ i) :
    apply_selected_alternative i s = s := by
  have h3 : (s.agent_alternatives.length : Int) = 3 := by rw [hlen]; rfl
  unfold apply_selected_alternative
  rw [if_neg (show ¬(0 ≤ i ∧ i < (s.agent_alternatives.length : Int)) by rw [h3]; omega)]

/-- Witness for C7 at the concrete selecting state with index 5. -/
theorem C7_select_out_of_range_witness :
    apply_selected_alternative 5 sSelecting = sSelecting :=
  C7_select_out_of_range sSelecting 5 (by decide) (Or.inr (by decide))

/-- C8: every approved chart tool call whose specification fails validation —
whether `json.loads` rejects the string or `alt.Chart.from_dict` raises a
grammar error — is non-fatal: one Chart event is recorded carrying the raw
spec string and the validation-failure result string, that result string
becomes the tool-result message content, chartSpecs is left unchanged, the
pending message is cleared, and the phase returns to thinking; the result
string is the Invalid JSON message for malformed JSON and the Invalid
Vega-Lite specification message for a grammar failure. -/
theorem C8_chart_validation_failure (env : ExecEnv) (s : AgentState) (pm : Message)
    (tc : ToolCall) (args : List (String × String)) (raw res e : String) (spec : SpecDict)
    (hpm : s.agent_pending_message = some pm)
    (hcalls : pm.tool_calls = [tc])
    (hname : tc.name = "CreateChart")
    (hargs : env.argsOf tc.arguments = .ok args)
    (hlook : args.lookup "vega_lite_spec" = some raw)
    (hval : validate_chart env raw = (none, res)) :
    execute_pending_tools env s = .ok
      { s with
        agent_phase := .thinking
        agent_pending_message := none
        agent_chart_specs := s.agent_chart_specs
        agent_events := s.agent_events ++ [Event.chart "CreateChart" raw res]
        agent_messages := s.agent_messages ++ [pm, toolResultMsg res tc.id] } ∧
    (env.jsonLoadsSpec raw = .error e →
      validate_chart env raw = (none, "Invalid JSON: " ++ e)) ∧
    (env.jsonLoadsSpec raw = .ok spec → env.fromDict spec = .error e →
      validate_chart env raw = (none, "Invalid Vega-Lite specification: " ++ e)) := by
  refine ⟨?_, ?_, ?_⟩
  · unfold execute_pending_tools
    simp only [hpm, hcalls]
    simp only [execLoop, hargs]
    rw [hname]
    rw [if_neg (show ¬ (("CreateChart" : String) = "QueryMovieDB") by decide), if_pos rfl]
    simp only [hlook]
    simp only [hval]
    simp [List.append_assoc]
  · intro hj
    simp [validate_chart, hj]
  · intro hj hf
    simp [validate_chart, hj, hf]

/-- Witness for C8 at two concrete fixtures: a bad-JSON chart spec and a
well-formed-JSON spec that fails grammar validation. -/
theorem C8_chart_validation_failure_witness :
    execute_pending_tools envBadChart sAwaitChart = .ok
      { sAwaitChart with
        agent_phase := .thinking
        agent_pending_message := none
        agent_chart_specs := sAwaitChart.agent_chart_specs
        agent_events := sAwaitChart.agent_events ++
          [Event.chart "CreateChart" "not json"
            ("Invalid JSON: " ++ "Expecting value: line 1 column 1 (char 0)")]
        agent_messages := sAwaitChart.agent_messages ++
          [assistantToolMsg "" [tcChart],
           toolResultMsg ("Invalid JSON: " ++ "Expecting value: line 1 column 1 (char 0)")
             tcChart.id] } ∧
    validate_chart envBadChart "not json" =
      (none, "Invalid JSON: " ++ "Expecting value: line 1 column 1 (char 0)") ∧
    execute_pending_tools envBadGrammar sAwaitChartGrammar = .ok
      { sAwaitChartGrammar with
        agent_phase := .thinking
        agent_pending_message := none
        agent_chart_specs := sAwaitChartGrammar.agent_chart_specs
        agent_events := sAwaitChartGrammar.agent_events ++
          [Event.chart "CreateChart" "\x7b\"mark\": \"sparkle\"\x7d"
            ("Invalid Vega-Lite specification: " ++ "sparkle is an invalid value for mark")]
        agent_messages := sAwaitChartGrammar.agent_messages ++
          [assistantToolMsg "" [tcChartGrammar],
           toolResultMsg
             ("Invalid Vega-Lite specification: " ++ "sparkle is an invalid value for mark")
             tcChartGrammar.id] } ∧
    validate_chart envBadGrammar "\x7b\"mark\": \"sparkle\"\x7d" =
      (none, "Invalid Vega-Lite specification: " ++ "sparkle is an invalid value for mark") :=
  ⟨(C8_chart_validation_failure envBadChart sAwaitChart (assistantToolMsg "" [tcChart])
      tcChart [("vega_lite_spec", "not json")] "not json"
      ("Invalid JSON: " ++ "Expecting value: line 1 column 1 (char 0)")
      "Expecting value: line 1 column 1 (char 0)" ⟨""⟩
      (by decide) rfl rfl rfl rfl rfl).1,
   (C8_chart_validation_failure envBadChart sAwaitChart (assistantToolMsg "" [tcChart])
      tcChart [("vega_lite_spec", "not json")] "not json"
      ("Invalid JSON: " ++ "Expecting value: line 1 column 1 (char 0)")
      "Expecting value: line 1 column 1 (char 0)" ⟨""⟩
      (by decide) rfl rfl rfl rfl rfl).2.1 rfl,
   (C8_chart_validation_failure envBadGrammar sAwaitChartGrammar
      (assistantToolMsg "" [tcChartGrammar]) tcChartGrammar
      [("vega_lite_spec", "\x7b\"mark\": \"sparkle\"\x7d")] "\x7b\"mark\": \"sparkle\"\x7d"
      ("Invalid Vega-Lite specification: " ++ "sparkle is an invalid value for mark")
      "sparkle is an invalid value for mark" ⟨"\x7b\"mark\": \"sparkle\"\x7d"⟩
      (by decide) rfl rfl rfl rfl rfl).1,
   (C8_chart_validation_failure envBadGrammar sAwaitChartGrammar
      (assistantToolMsg "" [tcChartGrammar]) tcChartGrammar
      [("vega_lite_spec", "\x7b\"mark\": \"sparkle\"\x7d")] "\x7b\"mark\": \"sparkle\"\x7d"
      ("Invalid Vega-Lite specification: " ++ "sparkle is an invalid value for mark")
      "sparkle is an invalid value for mark" ⟨"\x7b\"mark\": \"sparkle\"\x7d"⟩
      (by decide) rfl rfl rfl rfl rfl).2.2 rfl rfl⟩

/-- C9: the executor dispatch covers only the tool names QueryMovieDB and
CreateChart — if the first pending call carries any other name, no branch
assigns the `result` variable, so appending its tool-result message raises
`NameError` and no tool-result message is produced for that call (only the
assistant tool-call message has been appended when the exception escapes). -/
theorem C9_unknown_tool_name (env : ExecEnv) (s : AgentState) (pm : Message)
    (tc : ToolCall) (rest : List ToolCall) (args : List (String × String))
    (hpm : s.agent_pending_message = some pm)
    (hcalls : pm.tool_calls = tc :: rest)
    (hq : tc.name ≠ "QueryMovieDB") (hc : tc.name ≠ "CreateChart")
    (hargs : env.argsOf tc.arguments = .ok args) :
    execute_pending_tools env s =
      .error (.nameError "result",
        { s with agent_messages := s.agent_messages ++ [pm] }) := by
  unfold execute_pending_tools
  simp only [hpm, hcalls]
  simp only [execLoop, hargs]
  rw [if_neg hq, if_neg hc]

/-- Witness for C9 at the concrete unknown-tool-name fixture. -/
theorem C9_unknown_tool_name_witness :
    execute_pending_tools envRogue sAwaitRogue =
      .error (.nameError "result",
        { sAwaitRogue with
            agent_messages := sAwaitRogue.agent_messages ++ [assistantToolMsg "" [tcRogue]] }) :=
  C9_unknown_tool_name envRogue sAwaitRogue (assistantToolMsg "" [tcRogue]) tcRogue [] []
    (by decide) rfl (by decide) (by decide) rfl

/-- C10: while a proposal awaits approval or feedback it is held only in the
pending slot — the acting step leaves the message list unchanged and stores
the assistant tool-call message in the pending slot — and it enters the
history only together with, and immediately before, its tool-result messages:
on successful execution the history grows by the pending message followed by
exactly one matching tool-result per call, and on rejection by the pending
message followed by the synthetic rejection results, one per call. -/
theorem C10_pending_outside_history (s s2 : AgentState) (pm : Message) (env : ExecEnv)
    (fb c : String) (tcs : List ToolCall)
    (hne : tcs ≠ [])
    (hpm : s.agent_pending_message = some pm)
    (hexec : execute_pending_tools env s = .ok s2) :
    (run_step_acting c tcs s).agent_messages = s.agent_messages ∧
    (run_step_acting c tcs s).agent_pending_message = some (assistantToolMsg c tcs) ∧
    s2.agent_messages =
      s.agent_messages ++ pm :: s2.agent_messages.drop (s.agent_messages.length + 1) ∧
    resultsFor pm.tool_calls (s2.agent_messages.drop (s.agent_messages.length + 1)) = true ∧
    (reject_pending_tools fb s).map (fun s3 => s3.agent_messages) =
      .ok (s.agent_messages ++ pm :: rejectResults fb pm.tool_calls) ∧
    resultsFor pm.tool_calls (rejectResults fb pm.tool_calls) = true := by
  obtain ⟨rs, hmsg, hres, _, _⟩ := execute_ok_spec env s s2 pm hpm hexec
  have hdrop : s2.agent_messages.drop (s.agent_messages.length + 1) = rs := by
    rw [hmsg]
    have h1 : s.agent_messages ++ pm :: rs = (s.agent_messages ++ [pm]) ++ rs := by simp
    rw [h1]
    have h2 : s.agent_messages.length + 1 = (s.agent_messages ++ [pm]).length := by simp
    rw [h2, List.drop_left]
  have hemp : ¬ (tcs.isEmpty = true) := by
    cases tcs with
    | nil => exact absurd rfl hne
    | cons a l => simp [List.isEmpty]
  refine ⟨run_step_acting_messages c tcs s, ?_, ?_, ?_, ?_,
    resultsFor_rejectResults fb pm.tool_calls⟩
  · unfold run_step_acting
    rw [if_neg hemp]
  · rw [hdrop]; exact hmsg
  · rw [hdrop]; exact hres
  · rw [reject_ok_spec fb s pm hpm]; rfl

/-- Witness for C10 at the concrete approved-execution fixture. -/
theorem C10_pending_outside_history_witness :
    (run_step_acting "" [tcQuery] sAwaiting).agent_messages = sAwaiting.agent_messages ∧
    (run_step_acting "" [tcQuery] sAwaiting).agent_pending_message =
      some (assistantToolMsg "" [tcQuery]) ∧
    sApproved.agent_messages =
      sAwaiting.agent_messages ++ assistantToolMsg "" [tcQuery] ::
        sApproved.agent_messages.drop (sAwaiting.agent_messages.length + 1) ∧
    resultsFor (assistantToolMsg "" [tcQuery]).tool_calls
      (sApproved.agent_messages.drop (sAwaiting.agent_messages.length + 1)) = true ∧
    (reject_pending_tools "too slow" sAwaiting).map (fun s3 => s3.agent_messages) =
      .ok (sAwaiting.agent_messages ++ assistantToolMsg "" [tcQuery] ::
        rejectResults "too slow" (assistantToolMsg "" [tcQuery]).tool_calls) ∧
    resultsFor (assistantToolMsg "" [tcQuery]).tool_calls
      (rejectResults "too slow" (assistantToolMsg "" [tcQuery]).tool_calls) = true :=
  C10_pending_outside_history sAwaiting sApproved (assistantToolMsg "" [tcQuery]) envQuery
    "too slow" "" [tcQuery] (by decide) (by decide) (by rfl)

end AgentPanel
